import Mathlib

/-!
Verification of the `FakeWindow` widget of `src/assets/window.js`.

The development shallowly embeds the parts of the widget the properties
talk about:

* the geometry classifier `getWindowCursorState` (window.js lines 149-227),
  with the window / title-bar bounding rectangles and the two configured
  hit-zone sizes passed as values (the source reads them from the live DOM
  and from `this._config`);
* the `mousemove` hover handler installed by the constructor
  (window.js lines 292-326);
* the configuration-normalisation and element-lookup phases of the
  constructor (window.js lines 262-281) over an explicit heap of
  configuration objects, so that the aliasing behaviour of
  `this._config = config` is visible;
* `close` (window.js lines 234-243) together with the document-level
  `mouseup` listener registration of line 332.

JS numbers appear only in comparisons, additions, subtractions and
doublings here, so they are modelled by an arbitrary linear ordered
commutative ring `α` (every finite binary64 value embeds into such a ring;
theorems quantified over `α` in particular cover `ℚ`, while concrete
evaluations instantiate `α := ℤ`).  `NaN` and non-number values are
modelled explicitly where the code can meet them (`draggingThreshold`).
`Object.freeze` is not modelled.
-/

namespace FakeWindow

variable {α : Type} [LinearOrderedCommRing α]

/-- A cursor point, the `{ x, y }` shape taken by `FakeWindow.util.includes`. -/
structure Point (α : Type) where
  x : α
  y : α
deriving DecidableEq

/-- A DOMRect as used by the classifier: position plus extent. -/
structure Rect (α : Type) where
  x : α
  y : α
  width : α
  height : α
deriving DecidableEq

/-- The corner tags (`TCorners` in the source). -/
inductive TCorner where
  | nw | ne | se | sw
deriving DecidableEq

/-- The edge tags (`TEdges` in the source). -/
inductive TEdge where
  | w | n | e | s
deriving DecidableEq

/-- Result shape of `getWindowCursorState` (window.js lines 155-159). -/
structure CursorState where
  corner : Option TCorner
  edge : Option TEdge
  inDragZone : Bool
deriving DecidableEq

/-- `FakeWindow.util.includes` (window.js lines 102-107): closed-rectangle
containment, inclusive on all four bounds (`>=` / `<=` in the source). -/
def includes (rect : Rect α) (point : Point α) : Bool :=
  decide (rect.x ≤ point.x) &&
  decide (point.x ≤ rect.x + rect.width) &&
  decide (rect.y ≤ point.y) &&
  decide (point.y ≤ rect.y + rect.height)

/-- The `corners` record of window.js lines 163-180, in `Object.entries`
order `nw, ne, se, sw`, parametrised by the window rectangle and
`_config.resizePointCornerSize`. -/
def cornerRects (windowRect : Rect α) (cornerSize : α) : List (TCorner × Rect α) :=
  [ (.nw, ⟨windowRect.x, windowRect.y, cornerSize, cornerSize⟩),
    (.ne, ⟨windowRect.x + windowRect.width - cornerSize, windowRect.y, cornerSize, cornerSize⟩),
    (.se, ⟨windowRect.x + windowRect.width - cornerSize,
           windowRect.y + windowRect.height - cornerSize, cornerSize, cornerSize⟩),
    (.sw, ⟨windowRect.x, windowRect.y + windowRect.height - cornerSize, cornerSize, cornerSize⟩) ]

/-- The `edges` record of window.js lines 182-203, in `Object.entries`
order `w, n, e, s`; an entry is `none` exactly when its per-axis flag is
off (the source stores `null` there and the scan skips it). -/
def edgeRects (windowRect : Rect α) (cornerSize edgeSize : α)
    (checkEdgesX checkEdgesY : Bool) : List (TEdge × Option (Rect α)) :=
  [ (.w, if checkEdgesX then
        some ⟨windowRect.x, windowRect.y + cornerSize,
              edgeSize, windowRect.height - cornerSize * 2⟩
      else none),
    (.n, if checkEdgesY then
        some ⟨windowRect.x + cornerSize, windowRect.y,
              windowRect.width - cornerSize * 2, edgeSize⟩
      else none),
    (.e, if checkEdgesX then
        some ⟨windowRect.x + windowRect.width - edgeSize, windowRect.y + cornerSize,
              edgeSize, windowRect.height - cornerSize * 2⟩
      else none),
    (.s, if checkEdgesY then
        some ⟨windowRect.x + cornerSize, windowRect.y + windowRect.height - edgeSize,
              windowRect.width - cornerSize * 2, edgeSize⟩
      else none) ]

/-- `FakeWindow.getWindowCursorState` (window.js lines 149-227).

`windowRect` and `titlebarRect` stand for
`this.window.getBoundingClientRect()` and
`this.titlebar.getBoundingClientRect()`; `cornerSize` / `edgeSize` are the
numeric values of `_config.resizePointCornerSize` /
`_config.resizePointEdgeSize`.  The three boolean flags are the parameter
values after the defaults of line 149 have been applied (an `undefined`
argument has already become `true`).  The whole corners record is built only
when `checkCorners` is truthy (lines 163-180), the edges record only when
some edge flag is truthy (line 182); each scan takes the first matching
entry of its own record (`break`, lines 204-224) — the corner scan does
not guard the edge scan. -/
def getWindowCursorState (windowRect titlebarRect : Rect α) (cornerSize edgeSize : α)
    (cursor : Point α) (checkEdgesX checkEdgesY checkCorners : Bool) : CursorState :=
  { corner :=
      if checkCorners then
        (cornerRects windowRect cornerSize).findSome? fun kr =>
          if includes kr.2 cursor then some kr.1 else none
      else none,
    edge :=
      if checkEdgesX || checkEdgesY then
        (edgeRects windowRect cornerSize edgeSize checkEdgesX checkEdgesY).findSome? fun ke =>
          match ke.2 with
          | none => none
          | some r => if includes r cursor then some ke.1 else none
      else none,
    inDragZone := includes titlebarRect cursor }

/-- Model of `String.prototype.toLowerCase` for the ASCII axis strings the
widget handles. -/
def jsToLowerCase (s : String) : String := ⟨s.data.map Char.toLower⟩

/-- Model of `String.prototype.includes` for the single-character probes
`"x"` / `"y"` used on the axis-specifier strings. -/
def jsStrContainsChar (s : String) (c : Char) : Bool := s.data.contains c

/-- Stringification of the `resizeCursorClass` config field inside the
template literal of window.js line 309: the JS value `undefined` prints as
`"undefined"`. -/
def jsStringOfOpt : Option String → String
  | some s => s
  | none => "undefined"

/-- Name of an edge tag as it appears in the class suffix. -/
def edgeName : TEdge → String
  | .w => "w"
  | .n => "n"
  | .e => "e"
  | .s => "s"

/-- Name of a corner tag as it appears in the class suffix. -/
def cornerName : TCorner → String
  | .nw => "nw"
  | .ne => "ne"
  | .se => "se"
  | .sw => "sw"

/-- The fields of `this._config` read by the `mousemove` handler.  The two
sizes are taken as numbers: when `resize` is a non-empty string the
constructor has asserted them positive (window.js line 266), and when
`resize` is unset or empty a widget whose sizes are `undefined` computes
NaN zone geometry in the source, in which every containment comparison is
false and the handler always takes its clear branch — so only the
numeric-size configurations modelled here exercise the zone logic. -/
structure HandlerConfig (α : Type) where
  resize : Option String
  resizeCursorClass : Option String
  resizePointCornerSize : α
  resizePointEdgeSize : α
deriving DecidableEq

/-- The mutable hover bookkeeping of one widget: the class list of the
window element (`DOMTokenList`, duplicate-free in order of addition) and
the `_cursorHoverState` field. -/
structure HoverState where
  classList : List String
  cursorHoverState : Option String
deriving DecidableEq

/-- `DOMTokenList.add`: appends unless already present. -/
def classListAdd (cl : List String) (c : String) : List String :=
  if c ∈ cl then cl else cl ++ [c]

/-- `DOMTokenList.remove`: drops every occurrence. -/
def classListRemove (cl : List String) (c : String) : List String :=
  cl.filter fun x => x != c

/-- The classifier call of window.js lines 302-306.

`resizeX = eventConf.resize?.includes("x")` (and likewise `resizeY`) is a
boolean when `resize` is a string and `undefined` (here `none`) when it is
unset; `resizeBoth = resizeX && resizeY` uses the JS `&&`, which returns
its first falsy operand, so `undefined` propagates.  The default
parameters of `getWindowCursorState` (window.js line 149) then replace
each `undefined` argument — and only those — with `true`, which `.getD
true` applies: a widget with `resize` unset gets ALL corner and edge zones
checked. -/
def handlerCursorState (conf : HandlerConfig α) (windowRect titlebarRect : Rect α)
    (cursor : Point α) : CursorState :=
  let resizeX : Option Bool := match conf.resize with
    | some s => some (jsStrContainsChar s 'x')
    | none => none
  let resizeY : Option Bool := match conf.resize with
    | some s => some (jsStrContainsChar s 'y')
    | none => none
  let resizeBoth : Option Bool := match resizeX with
    | none => none
    | some false => some false
    | some true => resizeY
  getWindowCursorState windowRect titlebarRect
    conf.resizePointCornerSize conf.resizePointEdgeSize cursor
    (resizeX.getD true) (resizeY.getD true) (resizeBoth.getD true)

/-- With `resize` unset, the default parameters of window.js line 149 make
the handler check every corner and edge zone. -/
theorem handlerCursorState_resize_none (conf : HandlerConfig α)
    (windowRect titlebarRect : Rect α) (cursor : Point α)
    (h : conf.resize = none) :
    handlerCursorState conf windowRect titlebarRect cursor =
      getWindowCursorState windowRect titlebarRect
        conf.resizePointCornerSize conf.resizePointEdgeSize cursor true true true := by
  simp [handlerCursorState, h]

/-- One run of the `mousemove` handler of window.js lines 292-326.

`targetIsLimitButton` is the test of line 297 (`e.target` is the minimize,
maximize or close button).  The source names the zone-tag variable
`cursorStateClassPostfix` (line 307); note it takes `cursorState.edge`
first and falls back to `cursorState.corner`. -/
def onMouseMove (conf : HandlerConfig α) (windowRect titlebarRect : Rect α) (cursor : Point α)
    (targetIsLimitButton : Bool) (st : HoverState) : HoverState :=
  if targetIsLimitButton then st
  else
    let cursorState := handlerCursorState conf windowRect titlebarRect cursor
    let classSfx : Option String :=
      match cursorState.edge with
      | some ed => some (edgeName ed)
      | none => cursorState.corner.map cornerName
    match classSfx with
    | some sfx =>
      let targetClass := jsStringOfOpt conf.resizeCursorClass ++ "-" ++ sfx
      if targetClass ∈ st.classList then st
      else
        let cl := classListAdd st.classList targetClass
        let cl := match st.cursorHoverState with
          | some prev => classListRemove cl prev
          | none => cl
        { classList := cl, cursorHoverState := some targetClass }
    | none =>
      match st.cursorHoverState with
      | some prev =>
        { classList := classListRemove st.classList prev, cursorHoverState := none }
      | none => st

/-- The eight zone tags that can appear as a cursor-style class suffix. -/
def markerTags : List String := ["nw", "ne", "se", "sw", "w", "n", "e", "s"]

/-- Whether a class is a cursor-style marker class of this configuration:
the resize-cursor class, a dash, and one of the eight zone tags. -/
def isMarkerClass (conf : HandlerConfig α) (cl : String) : Bool :=
  markerTags.any fun t => cl == jsStringOfOpt conf.resizeCursorClass ++ "-" ++ t

/-- Number of cursor-style marker classes currently on the window element. -/
def markerCount (conf : HandlerConfig α) (st : HoverState) : Nat :=
  (st.classList.filter (isMarkerClass conf)).length

/-- The hover bookkeeping invariant maintained by the handler: the class
list is duplicate-free, every marker class on the element is the tracked
one, and the tracked class (when set) is a marker class on the element. -/
def HoverInv (conf : HandlerConfig α) (st : HoverState) : Prop :=
  st.classList.Nodup ∧
  (∀ cl ∈ st.classList, isMarkerClass conf cl = true → st.cursorHoverState = some cl) ∧
  (match st.cursorHoverState with
   | some hov => hov ∈ st.classList ∧ isMarkerClass conf hov = true
   | none => True)

/-- A JS value in a numeric position: a finite number, `NaN`, or a value of
non-number type carried with the result of its `ToNumber` coercion (`none`
when that coercion yields `NaN`, as for `undefined`). -/
inductive JSVal (α : Type) where
  | num (q : α)
  | nan
  | other (coerced : Option α)
deriving DecidableEq

/-- The test `typeof v === "number"`. -/
def typeofIsNumber : JSVal α → Bool
  | .num _ => true
  | .nan => true
  | .other _ => false

/-- `ToNumber` coercion, `none` standing for `NaN`. -/
def toNumberQ : JSVal α → Option α
  | .num q => some q
  | .nan => none
  | .other c => c

/-- The JS comparison `v <= bound` against a number: `false` whenever
either side coerces to `NaN`. -/
def jsLeConst (v : JSVal α) (bound : α) : Bool :=
  match toNumberQ v with
  | some q => decide (q ≤ bound)
  | none => false

/-- The configuration record (`FakeWindowConfig` typedef).  String-valued
options that may be `undefined` are `Option String`; numeric options that
may be `undefined` are `Option α`; `draggingThreshold` is a full `JSVal`
because the constructor inspects its type.  The source field
`elementClassPrefix` is called `elementClassPfx` here. -/
structure FakeWindowConfig (α : Type) where
  windowClass : String
  elementClassPfx : String
  titlebarClass : String
  titlebarTextClass : String
  titlebarMinimizeClass : String
  titlebarMaximizeClass : String
  titlebarCloseClass : String
  contentClass : String
  drag : Option String
  draggingThreshold : JSVal α
  resize : Option String
  resizeCursorClass : Option String
  resizePointEdgeSize : Option α
  resizePointCornerSize : Option α
  resizeMinWidth : Option α
  resizeMinHeight : Option α
  resizeMaxWidth : Option α
  resizeMaxHeight : Option α
deriving DecidableEq

/-- `FakeWindow.ConfigDefaults` (window.js lines 38-59).  The object has no
`resizeMaxWidth` / `resizeMaxHeight` keys, so those read as `undefined`. -/
def ConfigDefaults : FakeWindowConfig α :=
  { windowClass := "blurred window"
    elementClassPfx := "window"
    titlebarClass := "-titlebar"
    titlebarTextClass := "-title"
    titlebarMinimizeClass := "-minimize"
    titlebarMaximizeClass := "-maximize"
    titlebarCloseClass := "-close"
    contentClass := "-content"
    drag := some "xy"
    draggingThreshold := .num 10
    resize := some "xy"
    resizeCursorClass := some "cursor-resize"
    resizePointEdgeSize := some 8
    resizePointCornerSize := some 12
    resizeMinWidth := some 100
    resizeMinHeight := some 50
    resizeMaxWidth := none
    resizeMaxHeight := none }

/-- The character class `/[xy]/i` tested by the axis-specifier asserts. -/
def isXYChar (ch : Char) : Bool :=
  ch == 'x' || ch == 'y' || ch == 'X' || ch == 'Y'

/-- Truthiness of a string-or-undefined value (`!!v`): `undefined` and the
empty string are falsy. -/
def strTruthyOpt : Option String → Bool
  | none => false
  | some s => s != ""

/-- The JS comparison `v > 0` for a number-or-undefined option value
(`undefined` coerces to `NaN`, so the comparison is `false`). -/
def qGtZeroOpt : Option α → Bool
  | none => false
  | some q => decide (0 < q)

/-- The asserted condition of window.js line 266 (after `resize` has been
lowercased): `!resize || (resize.length <= 2 && util.all(resize, /[xy]/i)
&& !!resizeCursorClass && cornerSize > 0 && edgeSize > 0)`; `util.all`
(lines 84-92) checks every character. -/
def resizeSetupOk (c : FakeWindowConfig α) : Bool :=
  match c.resize with
  | none => true
  | some s =>
    s == "" ||
      (decide (s.length ≤ 2) && s.data.all isXYChar &&
       strTruthyOpt c.resizeCursorClass &&
       qGtZeroOpt c.resizePointCornerSize && qGtZeroOpt c.resizePointEdgeSize)

/-- The asserted condition of window.js line 268 (after `drag` has been
lowercased): `!drag || (drag.length <= 2 && util.all(drag, /[xy]/i))`. -/
def dragSetupOk (c : FakeWindowConfig α) : Bool :=
  match c.drag with
  | none => true
  | some s => s == "" || (decide (s.length ≤ 2) && s.data.all isXYChar)

/-- The replacement of window.js lines 269-271: `draggingThreshold` is reset
to `ConfigDefaults.draggingThreshold` when `threshold <= 10` or its type is
not `number`; otherwise it is kept. -/
def resolveDraggingThreshold (v : JSVal α) : JSVal α :=
  if jsLeConst v 10 || !(typeofIsNumber v) then
    (ConfigDefaults : FakeWindowConfig α).draggingThreshold
  else v

/-- The container element handed to the constructor: the set of class names
for which `windowElem.querySelector(".<name>")` finds a descendant, plus
whether the container currently sits in a parent (used by `remove()`). -/
structure ElemTree where
  subClasses : List String
  attachedToParent : Bool
deriving DecidableEq

/-- Whether `querySelector` finds a descendant with the given class name. -/
def ElemTree.has (t : ElemTree) (cls : String) : Bool :=
  t.subClasses.contains cls

/-- A heap of configuration objects: JS objects are references, so the
constructor argument is an address into this store. -/
structure Heap (α : Type) where
  store : List (FakeWindowConfig α)
deriving DecidableEq

/-- Dereference an address (total, with an arbitrary default for dangling
addresses, which the modelled code never produces). -/
def Heap.get (h : Heap α) (a : Nat) : FakeWindowConfig α :=
  h.store.getD a ConfigDefaults

/-- Overwrite the object at an address. -/
def Heap.set (h : Heap α) (a : Nat) (c : FakeWindowConfig α) : Heap α :=
  ⟨h.store.set a c⟩

/-- Allocate a fresh object (`FakeWindow.util.shallowClone` allocates and
copies the entries of its argument, window.js lines 128-139). -/
def Heap.alloc (h : Heap α) (c : FakeWindowConfig α) : Heap α × Nat :=
  (⟨h.store ++ [c]⟩, h.store.length)

/-- A constructed widget instance: the address of `this._config`, whether
`this.window` is still set, whether the container element is attached to a
parent, and which optional sub-elements were found. -/
structure Inst where
  configAddr : Nat
  window : Bool
  attached : Bool
  titlebarTextPresent : Bool
  titlebarMinimizePresent : Bool
  titlebarMaximizePresent : Bool
deriving DecidableEq

/-- Decidable equality for `Except` results, so constructor outcomes can be
evaluated on concrete inputs. -/
instance {ε σ : Type} [DecidableEq ε] [DecidableEq σ] : DecidableEq (Except ε σ) := fun x y =>
  match x, y with
  | .ok a, .ok b =>
    if h : a = b then .isTrue (by rw [h]) else .isFalse (by simp [h])
  | .ok _, .error _ => .isFalse (by simp)
  | .error _, .ok _ => .isFalse (by simp)
  | .error a, .error b =>
    if h : a = b then .isTrue (by rw [h]) else .isFalse (by simp [h])

/-- The `FakeWindow` constructor (window.js lines 262-281 and the listener
registration of lines 331-332) over the configuration heap.

* `cfgArg = some a` is a caller-supplied configuration object; `none` is
  the omitted argument, for which the default value
  `util.shallowClone(FakeWindow.ConfigDefaults)` allocates a fresh copy.
* `this._config = config` aliases, so the normalisation writes of lines
  265-271 go to the caller's object; writes interleave with the asserts
  and stay in the heap even when a later assert throws (the failed assert
  is the returned `Except.error`).
* The element phase asserts (in source order) the container, the title
  bar, the close affordance and the content area; title text and the
  minimize / maximize buttons are looked up without an assert.
* On success `document.addEventListener("mouseup", this._onMouseUp)`
  (line 332) has run exactly once, which the returned listener count
  reflects. -/
def constructH (windowElem : Option ElemTree) (cfgArg : Option Nat) (h0 : Heap α)
    (docListeners : Nat) : Heap α × Nat × Except String Inst :=
  let ha := match cfgArg with
    | some a => (h0, a)
    | none => h0.alloc ConfigDefaults
  let h1 := ha.1
  let a := ha.2
  let c1 := h1.get a
  let h2 := h1.set a { c1 with resize := c1.resize.map jsToLowerCase }
  let c2 := h2.get a
  if resizeSetupOk c2 = false then
    (h2, docListeners, .error "[window::FakeWindow] invalid resize setup, drag string should only contain X and Y, resizePointSize should be >0 and resizeCursorClass should be available if resize is available")
  else
    let h3 := h2.set a { c2 with drag := c2.drag.map jsToLowerCase }
    let c3 := h3.get a
    if dragSetupOk c3 = false then
      (h3, docListeners, .error "[window::FakeWindow] invalid drag setup, drag string should only contain X and Y.")
    else
      let h4 := h3.set a { c3 with draggingThreshold := resolveDraggingThreshold c3.draggingThreshold }
      let c4 := h4.get a
      match windowElem with
      | none =>
        (h4, docListeners, .error "[window::FakeWindow] No window, a predetermined window div is required.")
      | some t =>
        if (t.has (c4.elementClassPfx ++ c4.titlebarClass)) = false then
          (h4, docListeners, .error "[window::FakeWindow] No titlebar")
        else if (t.has (c4.elementClassPfx ++ c4.titlebarCloseClass)) = false then
          (h4, docListeners, .error "[window::FakeWindow] No titlebar close (yes close is required)")
        else if (t.has (c4.elementClassPfx ++ c4.contentClass)) = false then
          (h4, docListeners, .error "[window::FakeWindow] No content")
        else
          (h4, docListeners + 1,
            .ok { configAddr := a
                  window := true
                  attached := t.attachedToParent
                  titlebarTextPresent := t.has (c4.elementClassPfx ++ c4.titlebarTextClass)
                  titlebarMinimizePresent := t.has (c4.elementClassPfx ++ c4.titlebarMinimizeClass)
                  titlebarMaximizePresent := t.has (c4.elementClassPfx ++ c4.titlebarMaximizeClass) })

/-- Identifiers bound in the scope chain visible inside the `close` method:
window.js declares only `class FakeWindow` at the top level, the other two
scripts are IIFEs that bind nothing globally, and JS class method names are
properties of the prototype, not lexical bindings. -/
def topLevelBindings : List String := ["FakeWindow"]

/-- `FakeWindow.close` (window.js lines 234-243) together with the
document-level `mouseup` listener count.

The method removes the container from its parent, nulls `this.window`, and
then evaluates `document.removeEventListener("mouseup", _onMouseUp)`.  The
bare identifier `_onMouseUp` resolves through `topLevelBindings`; an
unresolvable identifier raises a `ReferenceError`, leaving the earlier
field mutations in place and the listener registered. -/
def jsClose (inst : Inst) (docListeners : Nat) : Inst × Nat × Option String :=
  if inst.window = false then
    (inst, docListeners, some "[FakeWindow::close] Cannot close unavailable or already closed window.")
  else
    let inst1 : Inst := { inst with attached := false, window := false }
    if topLevelBindings.contains "_onMouseUp" then
      (inst1, docListeners - 1, none)
    else
      (inst1, docListeners, some "ReferenceError: _onMouseUp is not defined")

/-! ### Basic facts about the classifier -/

/-- Containment unfolded to its four inequalities. -/
theorem includes_iff (r : Rect α) (p : Point α) :
    includes r p = true ↔
      r.x ≤ p.x ∧ p.x ≤ r.x + r.width ∧ r.y ≤ p.y ∧ p.y ≤ r.y + r.height := by
  simp [includes, and_assoc]

/-- Non-containment unfolded. -/
theorem includes_eq_false_iff (r : Rect α) (p : Point α) :
    includes r p = false ↔
      ¬(r.x ≤ p.x ∧ p.x ≤ r.x + r.width ∧ r.y ≤ p.y ∧ p.y ≤ r.y + r.height) := by
  rw [← includes_iff]
  cases includes r p <;> simp

/-- The corner scan as a first-match cascade in source order `nw, ne, se, sw`
(the corner field ignores the two edge flags). -/
theorem corner_scan_eq (wr tb : Rect α) (c e : α) (p : Point α) (ex ey : Bool) :
    (getWindowCursorState wr tb c e p ex ey true).corner =
      if includes (⟨wr.x, wr.y, c, c⟩ : Rect α) p then some .nw
      else if includes (⟨wr.x + wr.width - c, wr.y, c, c⟩ : Rect α) p then some .ne
      else if includes (⟨wr.x + wr.width - c, wr.y + wr.height - c, c, c⟩ : Rect α) p then
        some .se
      else if includes (⟨wr.x, wr.y + wr.height - c, c, c⟩ : Rect α) p then some .sw
      else none := by
  cases h1 : includes (⟨wr.x, wr.y, c, c⟩ : Rect α) p <;>
    cases h2 : includes (⟨wr.x + wr.width - c, wr.y, c, c⟩ : Rect α) p <;>
      cases h3 : includes (⟨wr.x + wr.width - c, wr.y + wr.height - c, c, c⟩ : Rect α) p <;>
        cases h4 : includes (⟨wr.x, wr.y + wr.height - c, c, c⟩ : Rect α) p <;>
          simp [getWindowCursorState, cornerRects, List.findSome?, h1, h2, h3, h4]

/-- The edge scan as a first-match cascade in source order `w, n, e, s`,
with each zone active only under its axis flag (the edge field ignores the
corner flag). -/
theorem edge_scan_eq (wr tb : Rect α) (c e : α) (p : Point α) (ex ey cc : Bool) :
    (getWindowCursorState wr tb c e p ex ey cc).edge =
      if ex && includes (⟨wr.x, wr.y + c, e, wr.height - c * 2⟩ : Rect α) p then some .w
      else if ey && includes (⟨wr.x + c, wr.y, wr.width - c * 2, e⟩ : Rect α) p then some .n
      else if ex && includes (⟨wr.x + wr.width - e, wr.y + c, e, wr.height - c * 2⟩ : Rect α) p then
        some .e
      else if ey && includes (⟨wr.x + c, wr.y + wr.height - e, wr.width - c * 2, e⟩ : Rect α) p then
        some .s
      else none := by
  cases ex <;> cases ey <;>
    cases h1 : includes (⟨wr.x, wr.y + c, e, wr.height - c * 2⟩ : Rect α) p <;>
      cases h2 : includes (⟨wr.x + c, wr.y, wr.width - c * 2, e⟩ : Rect α) p <;>
        cases h3 : includes (⟨wr.x + wr.width - e, wr.y + c, e, wr.height - c * 2⟩ : Rect α) p <;>
          cases h4 : includes (⟨wr.x + c, wr.y + wr.height - e, wr.width - c * 2, e⟩ : Rect α) p <;>
            simp [getWindowCursorState, edgeRects, List.findSome?, h1, h2, h3, h4]

/-! ### Claim C2 -/

/-- C2, counterexample: with the default sizes (corner 12, edge 8), window
rectangle `(0,0,200,100)` and all checks enabled, the cursor `(4,12)` lies
on the shared boundary of the NW corner zone and the W edge zone, and
`getWindowCursorState` reports BOTH `corner = nw` and `edge = w` — the
matching corner does not short-circuit edge testing, refuting the claim
that the two fields are never simultaneously non-null. -/
theorem C2_counterexample :
    (getWindowCursorState (α := ℤ) ⟨0, 0, 200, 100⟩ ⟨0, 0, 200, 20⟩ 12 8
        ⟨4, 12⟩ true true true).corner = some .nw ∧
    (getWindowCursorState (α := ℤ) ⟨0, 0, 200, 100⟩ ⟨0, 0, 200, 20⟩ 12 8
        ⟨4, 12⟩ true true true).edge = some .w := by
  decide

/-- C2, amended: the corner field and the edge field of
`getWindowCursorState` are computed by two independent first-match scans
(corners in order NW, NE, SE, SW, edges in order W, N, E, S); a matching
corner does not suppress edge reporting, so both fields can be non-null in
one call.  Whenever both are non-null, the cursor genuinely lies inside the
reported corner zone and inside the reported edge zone, and each field
keeps its value when the checks of the other family are disabled. -/
theorem C2_corner_edge_independent (wr tb : Rect α) (c e : α) (p : Point α)
    (k : TCorner) (ed : TEdge)
    (hk : (getWindowCursorState wr tb c e p true true true).corner = some k)
    (hed : (getWindowCursorState wr tb c e p true true true).edge = some ed) :
    (∃ r, (k, r) ∈ cornerRects wr c ∧ includes r p = true) ∧
    (∃ r, (ed, some r) ∈ edgeRects wr c e true true ∧ includes r p = true) ∧
    (getWindowCursorState wr tb c e p true true false).edge = some ed ∧
    (getWindowCursorState wr tb c e p false false true).corner = some k := by
  refine ⟨?_, ?_, hed, hk⟩
  · have h : (cornerRects wr c).findSome?
        (fun kr => if includes kr.2 p then some kr.1 else none) = some k := by
      simpa [getWindowCursorState] using hk
    obtain ⟨⟨k', r⟩, hmem, hf⟩ := List.exists_of_findSome?_eq_some h
    cases hincl : includes r p with
    | false => rw [hincl] at hf; simp at hf
    | true =>
      rw [hincl] at hf
      simp only [if_true] at hf
      obtain rfl : k' = k := by simpa using hf
      exact ⟨r, hmem, hincl⟩
  · have h : (edgeRects wr c e true true).findSome?
        (fun ke => match ke.2 with
          | none => none
          | some r => if includes r p then some ke.1 else none) = some ed := by
      simpa [getWindowCursorState] using hed
    obtain ⟨⟨ed', ro⟩, hmem, hf⟩ := List.exists_of_findSome?_eq_some h
    cases ro with
    | none => simp at hf
    | some r =>
      dsimp only at hf
      cases hincl : includes r p with
      | false => rw [hincl] at hf; simp at hf
      | true =>
        rw [hincl] at hf
        simp only [if_true] at hf
        obtain rfl : ed' = ed := by simpa using hf
        exact ⟨r, hmem, hincl⟩

/-- C2, witness: the amended theorem applied at the boundary cursor
`(4,12)` of the counterexample configuration. -/
theorem C2_witness :
    (getWindowCursorState (α := ℤ) ⟨0, 0, 200, 100⟩ ⟨0, 0, 200, 20⟩ 12 8
        ⟨4, 12⟩ true true true).corner = some .nw ∧
    (getWindowCursorState (α := ℤ) ⟨0, 0, 200, 100⟩ ⟨0, 0, 200, 20⟩ 12 8
        ⟨4, 12⟩ true true true).edge = some .w ∧
    ((∃ r, (TCorner.nw, r) ∈ cornerRects (⟨0, 0, 200, 100⟩ : Rect ℤ) 12 ∧
        includes r ⟨4, 12⟩ = true) ∧
     (∃ r, (TEdge.w, some r) ∈ edgeRects (⟨0, 0, 200, 100⟩ : Rect ℤ) 12 8 true true ∧
        includes r ⟨4, 12⟩ = true) ∧
     (getWindowCursorState (α := ℤ) ⟨0, 0, 200, 100⟩ ⟨0, 0, 200, 20⟩ 12 8
        ⟨4, 12⟩ true true false).edge = some .w ∧
     (getWindowCursorState (α := ℤ) ⟨0, 0, 200, 100⟩ ⟨0, 0, 200, 20⟩ 12 8
        ⟨4, 12⟩ false false true).corner = some .nw) :=
  ⟨by decide, by decide,
    C2_corner_edge_independent ⟨0, 0, 200, 100⟩ ⟨0, 0, 200, 20⟩ 12 8 ⟨4, 12⟩
      .nw .w (by decide) (by decide)⟩

/-! ### Claim C7 -/

/-- C7, counterexample: for the window rectangle `(0,0,5,5)` with corner
size 12 > 0 and edge size 8 > 0, the cursor exactly at the rectangle's NE
corner coordinate `(5,0)` is NOT classified as that corner: the NW corner
zone (tested first) already contains it, so the claim fails for rectangles
smaller than the corner size. -/
theorem C7_counterexample :
    (getWindowCursorState (α := ℤ) ⟨0, 0, 5, 5⟩ ⟨0, 0, 5, 2⟩ 12 8
        ⟨5, 0⟩ true true true).corner ≠ some .ne ∧
    (getWindowCursorState (α := ℤ) ⟨0, 0, 5, 5⟩ ⟨0, 0, 5, 2⟩ 12 8
        ⟨5, 0⟩ true true true).corner = some .nw := by
  decide

/-- C7, amended: for corner size `c > 0` and edge size `e > 0`, if moreover
the window rectangle is wider and taller than the corner size (`c < width`
and `c < height`), then a cursor exactly at each of the four corner
coordinates (all checks enabled) is classified as that corner; and at a
corner coordinate the edge field is always `none`, so the point is never
classified as an edge. -/
theorem C7_corner_points_classify (wr tb : Rect α) (c e : α)
    (hc : 0 < c) (he : 0 < e) (hw : c < wr.width) (hh : c < wr.height) :
    (getWindowCursorState wr tb c e ⟨wr.x, wr.y⟩ true true true).corner = some .nw ∧
    (getWindowCursorState wr tb c e ⟨wr.x, wr.y⟩ true true true).edge = none ∧
    (getWindowCursorState wr tb c e ⟨wr.x + wr.width, wr.y⟩ true true true).corner = some .ne ∧
    (getWindowCursorState wr tb c e ⟨wr.x + wr.width, wr.y⟩ true true true).edge = none ∧
    (getWindowCursorState wr tb c e ⟨wr.x + wr.width, wr.y + wr.height⟩
        true true true).corner = some .se ∧
    (getWindowCursorState wr tb c e ⟨wr.x + wr.width, wr.y + wr.height⟩
        true true true).edge = none ∧
    (getWindowCursorState wr tb c e ⟨wr.x, wr.y + wr.height⟩ true true true).corner = some .sw ∧
    (getWindowCursorState wr tb c e ⟨wr.x, wr.y + wr.height⟩ true true true).edge = none := by
  have edge_none : ∀ q : Point α, q.y = wr.y ∨ q.y = wr.y + wr.height →
      q.x = wr.x ∨ q.x = wr.x + wr.width →
      (getWindowCursorState wr tb c e q true true true).edge = none := by
    intro q hy hx
    have f1 : includes (⟨wr.x, wr.y + c, e, wr.height - c * 2⟩ : Rect α) q = false := by
      rw [includes_eq_false_iff]
      rintro ⟨a1, a2, a3, a4⟩
      dsimp only at a1 a2 a3 a4
      rcases hy with h | h <;> rw [h] at a3 a4 <;> linarith
    have f2 : includes (⟨wr.x + c, wr.y, wr.width - c * 2, e⟩ : Rect α) q = false := by
      rw [includes_eq_false_iff]
      rintro ⟨a1, a2, a3, a4⟩
      dsimp only at a1 a2 a3 a4
      rcases hx with h | h <;> rw [h] at a1 a2 <;> linarith
    have f3 : includes (⟨wr.x + wr.width - e, wr.y + c, e, wr.height - c * 2⟩ : Rect α) q
        = false := by
      rw [includes_eq_false_iff]
      rintro ⟨a1, a2, a3, a4⟩
      dsimp only at a1 a2 a3 a4
      rcases hy with h | h <;> rw [h] at a3 a4 <;> linarith
    have f4 : includes (⟨wr.x + c, wr.y + wr.height - e, wr.width - c * 2, e⟩ : Rect α) q
        = false := by
      rw [includes_eq_false_iff]
      rintro ⟨a1, a2, a3, a4⟩
      dsimp only at a1 a2 a3 a4
      rcases hx with h | h <;> rw [h] at a1 a2 <;> linarith
    simp [edge_scan_eq, f1, f2, f3, f4]
  refine ⟨?_, edge_none _ (.inl rfl) (.inl rfl), ?_, edge_none _ (.inl rfl) (.inr rfl),
    ?_, edge_none _ (.inr rfl) (.inr rfl), ?_, edge_none _ (.inr rfl) (.inl rfl)⟩
  · have h1 : includes (⟨wr.x, wr.y, c, c⟩ : Rect α) (⟨wr.x, wr.y⟩ : Point α) = true := by
      rw [includes_iff]
      dsimp only
      exact ⟨le_refl _, by linarith, le_refl _, by linarith⟩
    simp [corner_scan_eq, h1]
  · have h1 : includes (⟨wr.x, wr.y, c, c⟩ : Rect α)
        (⟨wr.x + wr.width, wr.y⟩ : Point α) = false := by
      rw [includes_eq_false_iff]
      rintro ⟨a1, a2, a3, a4⟩
      dsimp only at a1 a2 a3 a4
      linarith
    have h2 : includes (⟨wr.x + wr.width - c, wr.y, c, c⟩ : Rect α)
        (⟨wr.x + wr.width, wr.y⟩ : Point α) = true := by
      rw [includes_iff]
      dsimp only
      exact ⟨by linarith, by linarith, le_refl _, by linarith⟩
    simp [corner_scan_eq, h1, h2]
  · have h1 : includes (⟨wr.x, wr.y, c, c⟩ : Rect α)
        (⟨wr.x + wr.width, wr.y + wr.height⟩ : Point α) = false := by
      rw [includes_eq_false_iff]
      rintro ⟨a1, a2, a3, a4⟩
      dsimp only at a1 a2 a3 a4
      linarith
    have h2 : includes (⟨wr.x + wr.width - c, wr.y, c, c⟩ : Rect α)
        (⟨wr.x + wr.width, wr.y + wr.height⟩ : Point α) = false := by
      rw [includes_eq_false_iff]
      rintro ⟨a1, a2, a3, a4⟩
      dsimp only at a1 a2 a3 a4
      linarith
    have h3 : includes (⟨wr.x + wr.width - c, wr.y + wr.height - c, c, c⟩ : Rect α)
        (⟨wr.x + wr.width, wr.y + wr.height⟩ : Point α) = true := by
      rw [includes_iff]
      dsimp only
      exact ⟨by linarith, by linarith, by linarith, by linarith⟩
    simp [corner_scan_eq, h1, h2, h3]
  · have h1 : includes (⟨wr.x, wr.y, c, c⟩ : Rect α)
        (⟨wr.x, wr.y + wr.height⟩ : Point α) = false := by
      rw [includes_eq_false_iff]
      rintro ⟨a1, a2, a3, a4⟩
      dsimp only at a1 a2 a3 a4
      linarith
    have h2 : includes (⟨wr.x + wr.width - c, wr.y, c, c⟩ : Rect α)
        (⟨wr.x, wr.y + wr.height⟩ : Point α) = false := by
      rw [includes_eq_false_iff]
      rintro ⟨a1, a2, a3, a4⟩
      dsimp only at a1 a2 a3 a4
      linarith
    have h3 : includes (⟨wr.x + wr.width - c, wr.y + wr.height - c, c, c⟩ : Rect α)
        (⟨wr.x, wr.y + wr.height⟩ : Point α) = false := by
      rw [includes_eq_false_iff]
      rintro ⟨a1, a2, a3, a4⟩
      dsimp only at a1 a2 a3 a4
      linarith
    have h4 : includes (⟨wr.x, wr.y + wr.height - c, c, c⟩ : Rect α)
        (⟨wr.x, wr.y + wr.height⟩ : Point α) = true := by
      rw [includes_iff]
      dsimp only
      exact ⟨le_refl _, by linarith, by linarith, by linarith⟩
    simp [corner_scan_eq, h1, h2, h3, h4]

/-- C7, witness: the amended theorem evaluated at the default sizes on the
rectangle `(0,0,200,100)`. -/
theorem C7_witness :
    (0 : ℤ) < 12 ∧ (0 : ℤ) < 8 ∧ (12 : ℤ) < 200 ∧ (12 : ℤ) < 100 ∧
    ((getWindowCursorState (α := ℤ) ⟨0, 0, 200, 100⟩ ⟨0, 0, 200, 20⟩ 12 8
        ⟨0, 0⟩ true true true).corner = some .nw ∧
     (getWindowCursorState (α := ℤ) ⟨0, 0, 200, 100⟩ ⟨0, 0, 200, 20⟩ 12 8
        ⟨0, 0⟩ true true true).edge = none ∧
     (getWindowCursorState (α := ℤ) ⟨0, 0, 200, 100⟩ ⟨0, 0, 200, 20⟩ 12 8
        ⟨200, 0⟩ true true true).corner = some .ne ∧
     (getWindowCursorState (α := ℤ) ⟨0, 0, 200, 100⟩ ⟨0, 0, 200, 20⟩ 12 8
        ⟨200, 0⟩ true true true).edge = none ∧
     (getWindowCursorState (α := ℤ) ⟨0, 0, 200, 100⟩ ⟨0, 0, 200, 20⟩ 12 8
        ⟨200, 100⟩ true true true).corner = some .se ∧
     (getWindowCursorState (α := ℤ) ⟨0, 0, 200, 100⟩ ⟨0, 0, 200, 20⟩ 12 8
        ⟨200, 100⟩ true true true).edge = none ∧
     (getWindowCursorState (α := ℤ) ⟨0, 0, 200, 100⟩ ⟨0, 0, 200, 20⟩ 12 8
        ⟨0, 100⟩ true true true).corner = some .sw ∧
     (getWindowCursorState (α := ℤ) ⟨0, 0, 200, 100⟩ ⟨0, 0, 200, 20⟩ 12 8
        ⟨0, 100⟩ true true true).edge = none) :=
  ⟨by decide, by decide, by decide, by decide,
    C7_corner_points_classify ⟨0, 0, 200, 100⟩ ⟨0, 0, 200, 20⟩ 12 8
      (by decide) (by decide) (by decide) (by decide)⟩

/-! ### Claim C8 -/

/-- C8, counterexample: the claim promises no corner for a cursor strictly
outside the window rectangle "regardless of the configured corner and edge
sizes", but with corner size 50 on the rectangle `(0,0,10,10)` the NW
corner zone extends past the rectangle: the cursor `(20,0)` is strictly
outside the window rectangle and outside the title-bar rectangle, yet it
is classified as corner `nw`. -/
theorem C8_counterexample :
    includes (⟨0, 0, 10, 10⟩ : Rect ℤ) ⟨20, 0⟩ = false ∧
    includes (⟨0, 0, 10, 3⟩ : Rect ℤ) ⟨20, 0⟩ = false ∧
    (getWindowCursorState (α := ℤ) ⟨0, 0, 10, 10⟩ ⟨0, 0, 10, 3⟩ 50 8
        ⟨20, 0⟩ true true true).corner = some .nw := by
  decide

/-- C8, amended: for positive corner and edge sizes that do not exceed the
window rectangle's width and height (so every zone lies inside the
rectangle), a cursor outside the window rectangle and outside the
title-bar rectangle yields no corner, no edge and `inDragZone = false`,
for every combination of the three check flags. -/
theorem C8_outside_no_zone (wr tb : Rect α) (c e : α) (p : Point α) (ex ey cc : Bool)
    (hc : 0 < c) (he : 0 < e) (hcw : c ≤ wr.width) (hch : c ≤ wr.height)
    (hew : e ≤ wr.width) (heh : e ≤ wr.height)
    (hout : includes wr p = false) (htb : includes tb p = false) :
    (getWindowCursorState wr tb c e p ex ey cc).corner = none ∧
    (getWindowCursorState wr tb c e p ex ey cc).edge = none ∧
    (getWindowCursorState wr tb c e p ex ey cc).inDragZone = false := by
  rw [includes_eq_false_iff] at hout
  have f1 : includes (⟨wr.x, wr.y, c, c⟩ : Rect α) p = false := by
    rw [includes_eq_false_iff]
    rintro ⟨a1, a2, a3, a4⟩
    dsimp only at a1 a2 a3 a4
    exact hout ⟨by linarith, by linarith, by linarith, by linarith⟩
  have f2 : includes (⟨wr.x + wr.width - c, wr.y, c, c⟩ : Rect α) p = false := by
    rw [includes_eq_false_iff]
    rintro ⟨a1, a2, a3, a4⟩
    dsimp only at a1 a2 a3 a4
    exact hout ⟨by linarith, by linarith, by linarith, by linarith⟩
  have f3 : includes (⟨wr.x + wr.width - c, wr.y + wr.height - c, c, c⟩ : Rect α) p = false := by
    rw [includes_eq_false_iff]
    rintro ⟨a1, a2, a3, a4⟩
    dsimp only at a1 a2 a3 a4
    exact hout ⟨by linarith, by linarith, by linarith, by linarith⟩
  have f4 : includes (⟨wr.x, wr.y + wr.height - c, c, c⟩ : Rect α) p = false := by
    rw [includes_eq_false_iff]
    rintro ⟨a1, a2, a3, a4⟩
    dsimp only at a1 a2 a3 a4
    exact hout ⟨by linarith, by linarith, by linarith, by linarith⟩
  have f5 : includes (⟨wr.x, wr.y + c, e, wr.height - c * 2⟩ : Rect α) p = false := by
    rw [includes_eq_false_iff]
    rintro ⟨a1, a2, a3, a4⟩
    dsimp only at a1 a2 a3 a4
    exact hout ⟨by linarith, by linarith, by linarith, by linarith⟩
  have f6 : includes (⟨wr.x + c, wr.y, wr.width - c * 2, e⟩ : Rect α) p = false := by
    rw [includes_eq_false_iff]
    rintro ⟨a1, a2, a3, a4⟩
    dsimp only at a1 a2 a3 a4
    exact hout ⟨by linarith, by linarith, by linarith, by linarith⟩
  have f7 : includes (⟨wr.x + wr.width - e, wr.y + c, e, wr.height - c * 2⟩ : Rect α) p
      = false := by
    rw [includes_eq_false_iff]
    rintro ⟨a1, a2, a3, a4⟩
    dsimp only at a1 a2 a3 a4
    exact hout ⟨by linarith, by linarith, by linarith, by linarith⟩
  have f8 : includes (⟨wr.x + c, wr.y + wr.height - e, wr.width - c * 2, e⟩ : Rect α) p
      = false := by
    rw [includes_eq_false_iff]
    rintro ⟨a1, a2, a3, a4⟩
    dsimp only at a1 a2 a3 a4
    exact hout ⟨by linarith, by linarith, by linarith, by linarith⟩
  refine ⟨?_, ?_, ?_⟩
  · cases cc with
    | false => simp [getWindowCursorState]
    | true => simp [corner_scan_eq, f1, f2, f3, f4]
  · simp [edge_scan_eq, f5, f6, f7, f8]
  · simpa [getWindowCursorState] using htb

/-- C8, witness: the amended theorem evaluated with default sizes on the
rectangle `(0,0,200,100)` at the outside cursor `(300,300)`. -/
theorem C8_witness :
    (0 : ℤ) < 12 ∧ (0 : ℤ) < 8 ∧ (12 : ℤ) ≤ 200 ∧ (12 : ℤ) ≤ 100 ∧
    (8 : ℤ) ≤ 200 ∧ (8 : ℤ) ≤ 100 ∧
    includes (⟨0, 0, 200, 100⟩ : Rect ℤ) ⟨300, 300⟩ = false ∧
    includes (⟨0, 0, 200, 20⟩ : Rect ℤ) ⟨300, 300⟩ = false ∧
    ((getWindowCursorState (α := ℤ) ⟨0, 0, 200, 100⟩ ⟨0, 0, 200, 20⟩ 12 8
        ⟨300, 300⟩ true true true).corner = none ∧
     (getWindowCursorState (α := ℤ) ⟨0, 0, 200, 100⟩ ⟨0, 0, 200, 20⟩ 12 8
        ⟨300, 300⟩ true true true).edge = none ∧
     (getWindowCursorState (α := ℤ) ⟨0, 0, 200, 100⟩ ⟨0, 0, 200, 20⟩ 12 8
        ⟨300, 300⟩ true true true).inDragZone = false) :=
  ⟨by decide, by decide, by decide, by decide, by decide, by decide, by decide, by decide,
    C8_outside_no_zone ⟨0, 0, 200, 100⟩ ⟨0, 0, 200, 20⟩ 12 8 ⟨300, 300⟩ true true true
      (by decide) (by decide) (by decide) (by decide) (by decide) (by decide)
      (by decide) (by decide)⟩

/-! ### Facts about the hover handler -/

/-- Left cancellation for string concatenation. -/
theorem string_append_left_cancel (s a b : String) (h : s ++ a = s ++ b) : a = b := by
  have hd := congrArg String.data h
  simp only [String.data_append] at hd
  exact String.ext (List.append_cancel_left hd)

/-- A corner-suffixed marker class never coincides with an edge-suffixed
one (the eight tag names are pairwise distinct). -/
theorem corner_class_ne_edge_class (s : String) (k : TCorner) (ed : TEdge) :
    s ++ "-" ++ cornerName k ≠ s ++ "-" ++ edgeName ed := by
  intro h
  have h2 := string_append_left_cancel (s ++ "-") _ _ h
  cases k <;> cases ed <;> exact absurd h2 (by decide)

/-- The edge-suffixed class is a marker class. -/
theorem isMarkerClass_edge (conf : HandlerConfig α) (ed : TEdge) :
    isMarkerClass conf (jsStringOfOpt conf.resizeCursorClass ++ "-" ++ edgeName ed) = true := by
  cases ed <;> simp [isMarkerClass, markerTags, edgeName]

/-- The corner-suffixed class is a marker class. -/
theorem isMarkerClass_corner (conf : HandlerConfig α) (k : TCorner) :
    isMarkerClass conf (jsStringOfOpt conf.resizeCursorClass ++ "-" ++ cornerName k) = true := by
  cases k <;> simp [isMarkerClass, markerTags, cornerName]

/-- The `targetClass` branch of the `mousemove` handler (window.js lines
308-319), factored out for the proofs. -/
def applyHoverClass (st : HoverState) (targetClass : String) : HoverState :=
  if targetClass ∈ st.classList then st
  else
    { classList := match st.cursorHoverState with
        | some prev => classListRemove (classListAdd st.classList targetClass) prev
        | none => classListAdd st.classList targetClass,
      cursorHoverState := some targetClass }

/-- The no-zone branch of the `mousemove` handler (window.js lines
322-325), factored out for the proofs. -/
def clearHoverClass (st : HoverState) : HoverState :=
  match st.cursorHoverState with
  | some prev => { classList := classListRemove st.classList prev, cursorHoverState := none }
  | none => st

/-- When the classifier reports an edge, the handler run is the
`targetClass` branch for the edge-suffixed class (the edge wins the
`edge || corner` choice of line 307). -/
theorem onMouseMove_edge_some (conf : HandlerConfig α) (wr tb : Rect α) (p : Point α)
    (st : HoverState) (ed : TEdge)
    (hedge : (handlerCursorState conf wr tb p).edge = some ed) :
    onMouseMove conf wr tb p false st =
      applyHoverClass st (jsStringOfOpt conf.resizeCursorClass ++ "-" ++ edgeName ed) := by
  simp [onMouseMove, applyHoverClass, hedge]

/-- When the classifier reports no edge but a corner, the handler run is
the `targetClass` branch for the corner-suffixed class. -/
theorem onMouseMove_corner_some (conf : HandlerConfig α) (wr tb : Rect α) (p : Point α)
    (st : HoverState) (k : TCorner)
    (hedge : (handlerCursorState conf wr tb p).edge = none)
    (hcorner : (handlerCursorState conf wr tb p).corner = some k) :
    onMouseMove conf wr tb p false st =
      applyHoverClass st (jsStringOfOpt conf.resizeCursorClass ++ "-" ++ cornerName k) := by
  simp [onMouseMove, applyHoverClass, hedge, hcorner]

/-- When the classifier reports neither zone, the handler run clears the
tracked hover class. -/
theorem onMouseMove_no_zone (conf : HandlerConfig α) (wr tb : Rect α) (p : Point α)
    (st : HoverState)
    (hedge : (handlerCursorState conf wr tb p).edge = none)
    (hcorner : (handlerCursorState conf wr tb p).corner = none) :
    onMouseMove conf wr tb p false st = clearHoverClass st := by
  simp [onMouseMove, clearHoverClass, hedge, hcorner]

/-- Appending a fresh element preserves `Nodup`. -/
theorem nodup_append_singleton {l : List String} {a : String}
    (h : l.Nodup) (ha : a ∉ l) : (l ++ [a]).Nodup :=
  h.append (List.nodup_singleton a) fun x hx h2 => ha ((List.mem_singleton.mp h2) ▸ hx)

/-- A duplicate-free list whose members satisfying `p` all equal `t` has at
most one member satisfying `p`. -/
theorem length_filter_le_one {l : List String} {p : String → Bool} {t : String}
    (hnd : l.Nodup) (hall : ∀ x ∈ l, p x = true → x = t) : (l.filter p).length ≤ 1 := by
  induction l with
  | nil => simp
  | cons a l ih =>
    rw [List.nodup_cons] at hnd
    by_cases hpa : p a = true
    · have hat : a = t := hall a (by simp) hpa
      rw [List.filter_cons_of_pos hpa]
      have hnil : l.filter p = [] := by
        rw [List.filter_eq_nil_iff]
        intro x hx hpx
        exact hnd.1 ((hall x (by simp [hx]) hpx).trans hat.symm ▸ hx)
      rw [hnil]
      simp
    · rw [List.filter_cons_of_neg (by simpa using hpa)]
      exact ih hnd.2 fun x hx hp => hall x (by simp [hx]) hp

/-- State of the handler after the `targetClass` branch, under the hover
invariant: the tracked class is the applied marker class, it is on the
element, and it is the only marker class on the element. -/
theorem applyHoverClass_spec (conf : HandlerConfig α) (st : HoverState) (tc : String)
    (hinv : HoverInv conf st) (htc : isMarkerClass conf tc = true) :
    (applyHoverClass st tc).cursorHoverState = some tc ∧
    tc ∈ (applyHoverClass st tc).classList ∧
    (∀ x ∈ (applyHoverClass st tc).classList, isMarkerClass conf x = true → x = tc) ∧
    (applyHoverClass st tc).classList.Nodup := by
  obtain ⟨hnd, hmark, hhov⟩ := hinv
  unfold applyHoverClass
  by_cases hmem : tc ∈ st.classList
  · rw [if_pos hmem]
    have h1 : st.cursorHoverState = some tc := hmark tc hmem htc
    refine ⟨h1, hmem, ?_, hnd⟩
    intro x hx hpx
    have h2 := hmark x hx hpx
    rw [h1] at h2
    exact (Option.some.inj h2).symm
  · rw [if_neg hmem]
    have hadd : classListAdd st.classList tc = st.classList ++ [tc] := by
      unfold classListAdd
      rw [if_neg hmem]
    cases hh : st.cursorHoverState with
    | none =>
      refine ⟨rfl, ?_, ?_, ?_⟩
      · simp [hadd]
      · intro x hx hpx
        rw [hadd, List.mem_append] at hx
        rcases hx with hx | hx
        · have h2 := hmark x hx hpx
          rw [hh] at h2
          cases h2
        · simpa using hx
      · rw [hadd]
        exact nodup_append_singleton hnd hmem
    | some prev =>
      rw [hh] at hhov
      obtain ⟨hprevmem, hprevmark⟩ := hhov
      have hne : prev ≠ tc := fun h => hmem (h ▸ hprevmem)
      refine ⟨rfl, ?_, ?_, ?_⟩
      · unfold classListRemove
        rw [hadd, List.mem_filter]
        exact ⟨by simp, by simp [hne.symm]⟩
      · intro x hx hpx
        unfold classListRemove at hx
        rw [List.mem_filter] at hx
        obtain ⟨hx1, hxne⟩ := hx
        rw [hadd, List.mem_append] at hx1
        rcases hx1 with hx1 | hx1
        · have h2 := hmark x hx1 hpx
          rw [hh] at h2
          exact absurd (Option.some.inj h2).symm (by simpa using hxne)
        · simpa using hx1
      · unfold classListRemove
        rw [hadd]
        exact (nodup_append_singleton hnd hmem).filter _

/-- State of the handler after the no-zone branch, under the hover
invariant: no marker class remains on the element. -/
theorem clearHoverClass_markers (conf : HandlerConfig α) (st : HoverState)
    (hinv : HoverInv conf st) :
    (clearHoverClass st).classList.filter (isMarkerClass conf) = [] := by
  obtain ⟨hnd, hmark, hhov⟩ := hinv
  unfold clearHoverClass
  cases hh : st.cursorHoverState with
  | none =>
    dsimp only
    rw [List.filter_eq_nil_iff]
    intro x hx hpx
    have h2 := hmark x hx hpx
    rw [hh] at h2
    cases h2
  | some prev =>
    dsimp only
    rw [List.filter_eq_nil_iff]
    intro x hx hpx
    unfold classListRemove at hx
    rw [List.mem_filter] at hx
    obtain ⟨hx1, hxne⟩ := hx
    have h2 := hmark x hx1 hpx
    rw [hh] at h2
    exact absurd (Option.some.inj h2).symm (by simpa using hxne)

/-! ### Claim C1 -/

/-- C1, counterexample: at cursor `(4,12)` on the default configuration the
cursor lies in both the NW corner zone and the W edge zone, yet the
`mousemove` handler adds the EDGE-suffixed class `cursor-resize-w` and not
the corner-suffixed class `cursor-resize-nw` — line 307 takes
`cursorState.edge || cursorState.corner`, so the edge tag wins, refuting
the claim that the marker class reflects the corner tag. -/
theorem C1_counterexample :
    (handlerCursorState (α := ℤ) ⟨some "xy", some "cursor-resize", 12, 8⟩
        ⟨0, 0, 200, 100⟩ ⟨0, 0, 200, 20⟩ ⟨4, 12⟩).corner = some .nw ∧
    (handlerCursorState (α := ℤ) ⟨some "xy", some "cursor-resize", 12, 8⟩
        ⟨0, 0, 200, 100⟩ ⟨0, 0, 200, 20⟩ ⟨4, 12⟩).edge = some .w ∧
    onMouseMove (α := ℤ) ⟨some "xy", some "cursor-resize", 12, 8⟩
        ⟨0, 0, 200, 100⟩ ⟨0, 0, 200, 20⟩ ⟨4, 12⟩ false ⟨[], none⟩ =
      ⟨["cursor-resize-w"], some "cursor-resize-w"⟩ ∧
    "cursor-resize-nw" ∉ (onMouseMove (α := ℤ) ⟨some "xy", some "cursor-resize", 12, 8⟩
        ⟨0, 0, 200, 100⟩ ⟨0, 0, 200, 20⟩ ⟨4, 12⟩ false ⟨[], none⟩).classList := by
  decide

/-- C1, amended: whenever the classifier reports an edge (in particular at
every cursor position lying in both a corner zone and an edge zone with
both checks enabled), the hover feedback of the `mousemove` handler
reflects the EDGE tag, not annotated corner tag: after the run the tracked
hover class is the resize-cursor class suffixed with the matching edge's
name, that class is on the window element, and the corner-suffixed class
is not. -/
theorem C1_hover_reflects_edge (conf : HandlerConfig α) (wr tb : Rect α) (p : Point α)
    (st : HoverState) (ed : TEdge)
    (hinv : HoverInv conf st)
    (hedge : (handlerCursorState conf wr tb p).edge = some ed) :
    (onMouseMove conf wr tb p false st).cursorHoverState =
      some (jsStringOfOpt conf.resizeCursorClass ++ "-" ++ edgeName ed) ∧
    (jsStringOfOpt conf.resizeCursorClass ++ "-" ++ edgeName ed)
      ∈ (onMouseMove conf wr tb p false st).classList ∧
    ∀ k : TCorner, (handlerCursorState conf wr tb p).corner = some k →
      (jsStringOfOpt conf.resizeCursorClass ++ "-" ++ cornerName k)
        ∉ (onMouseMove conf wr tb p false st).classList := by
  rw [onMouseMove_edge_some conf wr tb p st ed hedge]
  obtain ⟨h1, h2, h3, h4⟩ := applyHoverClass_spec conf st _ hinv (isMarkerClass_edge conf ed)
  refine ⟨h1, h2, ?_⟩
  intro k _ hmem
  exact corner_class_ne_edge_class _ k ed (h3 _ hmem (isMarkerClass_corner conf k))

/-- C1, witness: the amended theorem applied at the boundary cursor
`(4,12)` of the counterexample configuration, starting from the empty
class list. -/
theorem C1_witness :
    HoverInv (α := ℤ) ⟨some "xy", some "cursor-resize", 12, 8⟩ ⟨[], none⟩ ∧
    (handlerCursorState (α := ℤ) ⟨some "xy", some "cursor-resize", 12, 8⟩
        ⟨0, 0, 200, 100⟩ ⟨0, 0, 200, 20⟩ ⟨4, 12⟩).edge = some .w ∧
    ((onMouseMove (α := ℤ) ⟨some "xy", some "cursor-resize", 12, 8⟩
        ⟨0, 0, 200, 100⟩ ⟨0, 0, 200, 20⟩ ⟨4, 12⟩ false ⟨[], none⟩).cursorHoverState =
      some "cursor-resize-w" ∧
     "cursor-resize-w" ∈ (onMouseMove (α := ℤ) ⟨some "xy", some "cursor-resize", 12, 8⟩
        ⟨0, 0, 200, 100⟩ ⟨0, 0, 200, 20⟩ ⟨4, 12⟩ false ⟨[], none⟩).classList ∧
     ∀ k : TCorner, (handlerCursorState (α := ℤ) ⟨some "xy", some "cursor-resize", 12, 8⟩
        ⟨0, 0, 200, 100⟩ ⟨0, 0, 200, 20⟩ ⟨4, 12⟩).corner = some k →
       ("cursor-resize" ++ "-" ++ cornerName k)
         ∉ (onMouseMove (α := ℤ) ⟨some "xy", some "cursor-resize", 12, 8⟩
            ⟨0, 0, 200, 100⟩ ⟨0, 0, 200, 20⟩ ⟨4, 12⟩ false ⟨[], none⟩).classList) :=
  ⟨⟨List.nodup_nil, by simp, trivial⟩, by decide,
    C1_hover_reflects_edge ⟨some "xy", some "cursor-resize", 12, 8⟩
      ⟨0, 0, 200, 100⟩ ⟨0, 0, 200, 20⟩ ⟨4, 12⟩ ⟨[], none⟩ .w
      ⟨List.nodup_nil, by simp, trivial⟩ (by decide)⟩

/-! ### Claim C5 -/

/-- C5, counterexample: a handler run from the empty class list at cursor
`(0,50)` (on the W edge zone) leaves the marker class `cursor-resize-w`;
a following run whose event target is one of the title-bar buttons at
cursor `(160,10)` — a position in NO corner or edge zone — returns early
(line 297) and leaves that marker class on the window element, refuting
the claim that no marker class remains whenever the cursor lies in no
zone. -/
theorem C5_counterexample :
    onMouseMove (α := ℤ) ⟨some "xy", some "cursor-resize", 12, 8⟩
        ⟨0, 0, 200, 100⟩ ⟨0, 0, 200, 20⟩ ⟨0, 50⟩ false ⟨[], none⟩ =
      ⟨["cursor-resize-w"], some "cursor-resize-w"⟩ ∧
    (handlerCursorState (α := ℤ) ⟨some "xy", some "cursor-resize", 12, 8⟩
        ⟨0, 0, 200, 100⟩ ⟨0, 0, 200, 20⟩ ⟨160, 10⟩).corner = none ∧
    (handlerCursorState (α := ℤ) ⟨some "xy", some "cursor-resize", 12, 8⟩
        ⟨0, 0, 200, 100⟩ ⟨0, 0, 200, 20⟩ ⟨160, 10⟩).edge = none ∧
    onMouseMove (α := ℤ) ⟨some "xy", some "cursor-resize", 12, 8⟩
        ⟨0, 0, 200, 100⟩ ⟨0, 0, 200, 20⟩ ⟨160, 10⟩ true
        ⟨["cursor-resize-w"], some "cursor-resize-w"⟩ =
      ⟨["cursor-resize-w"], some "cursor-resize-w"⟩ ∧
    markerCount (α := ℤ) ⟨some "xy", some "cursor-resize", 12, 8⟩
        ⟨["cursor-resize-w"], some "cursor-resize-w"⟩ = 1 := by
  decide

/-- C5, amended: after a run of the `mousemove` handler whose event target
is NOT one of the title-bar buttons, starting from a state satisfying the
hover invariant (the tracked hover class is the only marker class, as the
handler itself maintains), at most one cursor-style marker class is on the
window element, and none remains when the cursor lies in no corner or edge
zone.  A run whose target is a title-bar button returns early and leaves
the state unchanged — there a stale marker class can persist even with the
cursor in no zone. -/
theorem C5_at_most_one_marker (conf : HandlerConfig α) (wr tb : Rect α) (p : Point α)
    (st : HoverState) (hinv : HoverInv conf st) :
    markerCount conf (onMouseMove conf wr tb p false st) ≤ 1 ∧
    ((handlerCursorState conf wr tb p).corner = none ∧
      (handlerCursorState conf wr tb p).edge = none →
      markerCount conf (onMouseMove conf wr tb p false st) = 0) ∧
    ∀ st2 : HoverState, onMouseMove conf wr tb p true st2 = st2 := by
  refine ⟨?_, ?_, fun st2 => rfl⟩
  · cases hedge : (handlerCursorState conf wr tb p).edge with
    | some ed =>
      rw [onMouseMove_edge_some conf wr tb p st ed hedge]
      obtain ⟨_, _, h3, h4⟩ := applyHoverClass_spec conf st _ hinv (isMarkerClass_edge conf ed)
      exact length_filter_le_one h4 h3
    | none =>
      cases hcorner : (handlerCursorState conf wr tb p).corner with
      | some k =>
        rw [onMouseMove_corner_some conf wr tb p st k hedge hcorner]
        obtain ⟨_, _, h3, h4⟩ :=
          applyHoverClass_spec conf st _ hinv (isMarkerClass_corner conf k)
        exact length_filter_le_one h4 h3
      | none =>
        rw [onMouseMove_no_zone conf wr tb p st hedge hcorner]
        unfold markerCount
        rw [clearHoverClass_markers conf st hinv]
        simp
  · rintro ⟨hcorner, hedge⟩
    rw [onMouseMove_no_zone conf wr tb p st hedge hcorner]
    unfold markerCount
    rw [clearHoverClass_markers conf st hinv]
    rfl

/-- C5, witness: the amended theorem applied at cursor `(4,12)` from the
empty class list on the default configuration. -/
theorem C5_witness :
    HoverInv (α := ℤ) ⟨some "xy", some "cursor-resize", 12, 8⟩ ⟨[], none⟩ ∧
    (markerCount (α := ℤ) ⟨some "xy", some "cursor-resize", 12, 8⟩
        (onMouseMove (α := ℤ) ⟨some "xy", some "cursor-resize", 12, 8⟩
          ⟨0, 0, 200, 100⟩ ⟨0, 0, 200, 20⟩ ⟨4, 12⟩ false ⟨[], none⟩) ≤ 1 ∧
     ((handlerCursorState (α := ℤ) ⟨some "xy", some "cursor-resize", 12, 8⟩
          ⟨0, 0, 200, 100⟩ ⟨0, 0, 200, 20⟩ ⟨4, 12⟩).corner = none ∧
       (handlerCursorState (α := ℤ) ⟨some "xy", some "cursor-resize", 12, 8⟩
          ⟨0, 0, 200, 100⟩ ⟨0, 0, 200, 20⟩ ⟨4, 12⟩).edge = none →
       markerCount (α := ℤ) ⟨some "xy", some "cursor-resize", 12, 8⟩
          (onMouseMove (α := ℤ) ⟨some "xy", some "cursor-resize", 12, 8⟩
            ⟨0, 0, 200, 100⟩ ⟨0, 0, 200, 20⟩ ⟨4, 12⟩ false ⟨[], none⟩) = 0) ∧
     ∀ st2 : HoverState, onMouseMove (α := ℤ) ⟨some "xy", some "cursor-resize", 12, 8⟩
        ⟨0, 0, 200, 100⟩ ⟨0, 0, 200, 20⟩ ⟨4, 12⟩ true st2 = st2) :=
  ⟨⟨List.nodup_nil, by simp, trivial⟩,
    C5_at_most_one_marker ⟨some "xy", some "cursor-resize", 12, 8⟩
      ⟨0, 0, 200, 100⟩ ⟨0, 0, 200, 20⟩ ⟨4, 12⟩ ⟨[], none⟩
      ⟨List.nodup_nil, by simp, trivial⟩⟩

/-! ### Facts about the constructor -/

/-- Reading back the address just written. -/
theorem Heap.get_set_self (h : Heap α) (a : Nat) (c : FakeWindowConfig α)
    (ha : a < h.store.length) : (h.set a c).get a = c := by
  simp [Heap.get, Heap.set, List.getD_eq_getElem?_getD, List.getElem?_set_self ha]

/-- Writing one address leaves the others unchanged. -/
theorem Heap.get_set_ne (h : Heap α) (a b : Nat) (c : FakeWindowConfig α)
    (hne : a ≠ b) : (h.set a c).get b = h.get b := by
  simp [Heap.get, Heap.set, List.getD_eq_getElem?_getD, List.getElem?_set_ne hne]

/-- Writing does not change the extent of the heap. -/
theorem Heap.length_set (h : Heap α) (a : Nat) (c : FakeWindowConfig α) :
    (h.set a c).store.length = h.store.length := by
  simp [Heap.set]

/-- Consecutive writes to one address collapse to the last one. -/
theorem Heap.set_set (h : Heap α) (a : Nat) (c c' : FakeWindowConfig α) :
    (h.set a c).set a c' = h.set a c' := by
  simp [Heap.set, List.set_set]

/-- Reading back a freshly allocated object. -/
theorem Heap.get_alloc_self (h : Heap α) (c : FakeWindowConfig α) :
    (h.alloc c).1.get (h.alloc c).2 = c := by
  simp [Heap.get, Heap.alloc, List.getD_eq_getElem?_getD, List.getElem?_concat_length]

/-- Allocation leaves existing objects unchanged. -/
theorem Heap.get_alloc_lt (h : Heap α) (c : FakeWindowConfig α) (b : Nat)
    (hb : b < h.store.length) : (h.alloc c).1.get b = h.get b := by
  simp [Heap.get, Heap.alloc, List.getD_eq_getElem?_getD, List.getElem?_append_left hb]

/-- Allocation grows the heap by one. -/
theorem Heap.length_alloc (h : Heap α) (c : FakeWindowConfig α) :
    (h.alloc c).1.store.length = h.store.length + 1 := by
  simp [Heap.alloc]

/-- The combined effect of the normalisation writes of window.js lines
265-271 on the configuration object, factored out for the proofs. -/
def normalizeConfig (c : FakeWindowConfig α) : FakeWindowConfig α :=
  { c with resize := c.resize.map jsToLowerCase,
           drag := c.drag.map jsToLowerCase,
           draggingThreshold := resolveDraggingThreshold c.draggingThreshold }

/-- Successful construction on a caller-supplied configuration object:
the instance aliases the caller's address, the document listener count
grows by exactly one, the caller's object now holds the normalised
configuration, and no other heap object changed. -/
theorem constructH_some_ok {windowElem : Option ElemTree} {a : Nat} {h : Heap α}
    {doc : Nat} {h' : Heap α} {d' : Nat} {inst : Inst}
    (ha : a < h.store.length)
    (hok : constructH windowElem (some a) h doc = (h', d', .ok inst)) :
    inst.configAddr = a ∧ inst.window = true ∧ d' = doc + 1 ∧
    h'.get a = normalizeConfig (h.get a) ∧
    (∀ b, b ≠ a → h'.get b = h.get b) ∧
    h'.store.length = h.store.length := by
  simp only [constructH, Heap.get_set_self, Heap.length_set, Heap.set_set, ha] at hok
  split at hok
  · exact Except.noConfusion (congrArg (fun x => x.2.2) hok)
  · split at hok
    · exact Except.noConfusion (congrArg (fun x => x.2.2) hok)
    · split at hok
      · exact Except.noConfusion (congrArg (fun x => x.2.2) hok)
      · split at hok
        · exact Except.noConfusion (congrArg (fun x => x.2.2) hok)
        · split at hok
          · exact Except.noConfusion (congrArg (fun x => x.2.2) hok)
          · split at hok
            · exact Except.noConfusion (congrArg (fun x => x.2.2) hok)
            · simp only [Prod.mk.injEq, Except.ok.injEq] at hok
              obtain ⟨rfl, rfl, rfl⟩ := hok
              refine ⟨rfl, rfl, rfl, ?_, ?_, ?_⟩
              · rw [Heap.get_set_self _ _ _ ha]
                simp [normalizeConfig]
              · intro b hb
                exact Heap.get_set_ne _ _ _ _ (fun hab => hb hab.symm)
              · exact Heap.length_set _ _ _

/-- Successful construction with the configuration argument omitted: the
instance owns a fresh address one past the previous heap extent, that
address holds the normalised clone of the defaults, and every existing
heap object is untouched. -/
theorem constructH_none_ok {windowElem : Option ElemTree} {h : Heap α}
    {doc : Nat} {h' : Heap α} {d' : Nat} {inst : Inst}
    (hok : constructH windowElem none h doc = (h', d', .ok inst)) :
    inst.configAddr = h.store.length ∧ inst.window = true ∧ d' = doc + 1 ∧
    h'.get inst.configAddr = normalizeConfig ConfigDefaults ∧
    (∀ b, b < h.store.length → h'.get b = h.get b) := by
  have halloc : constructH windowElem (some (h.alloc (ConfigDefaults : FakeWindowConfig α)).2)
      (h.alloc ConfigDefaults).1 doc = (h', d', .ok inst) := by
    rw [← hok]
    rfl
  have ha : (h.alloc (ConfigDefaults : FakeWindowConfig α)).2
      < (h.alloc (ConfigDefaults : FakeWindowConfig α)).1.store.length := by
    simp [Heap.alloc]
  obtain ⟨h1, h2, h3, h4, h5, _⟩ := constructH_some_ok ha halloc
  refine ⟨h1, h2, h3, ?_, ?_⟩
  · rw [h1, h4]
    congr 1
    exact Heap.get_alloc_self h ConfigDefaults
  · intro b hb
    rw [h5 b (by intro hba; rw [hba] at hb; simp [Heap.alloc] at hb)]
    exact Heap.get_alloc_lt h ConfigDefaults b hb

/-! ### Claim C3 -/

/-- C3: construction registers the document-level `mouseup` listener
exactly once (count 0 becomes 1), but `close` on the open instance — while
it does detach the container and null `this.window`, making every
subsequent operation fail — raises
`ReferenceError: _onMouseUp is not defined` at
`document.removeEventListener("mouseup", _onMouseUp)` (window.js line 242
names the bare identifier instead of `this._onMouseUp`), so the
document-level listener count stays 1: the listener is never released,
contradicting the claim's "removes the document-level pointer-up
listener". -/
theorem C3_close_never_releases_listener :
    (constructH (α := ℤ)
        (some ⟨["window-titlebar", "window-close", "window-content"], true⟩)
        none ⟨[]⟩ 0).2.1 = 1 ∧
    jsClose ⟨0, true, true, false, false, false⟩ 1 =
      (⟨0, false, false, false, false, false⟩, 1,
        some "ReferenceError: _onMouseUp is not defined") ∧
    jsClose ⟨0, false, false, false, false, false⟩ 1 =
      (⟨0, false, false, false, false, false⟩, 1,
        some "[FakeWindow::close] Cannot close unavailable or already closed window.") := by
  decide

/-! ### Claim C6 -/

/-- C6, counterexample: a caller-supplied configuration identical to the
defaults except that the optional numeric bounds are unset is accepted at
construction, and the resolved configuration keeps those bounds unset —
the constructor performs no per-field defaulting on supplied records, so
the resolved minimum width is NOT 100. -/
theorem C6_counterexample :
    (constructH (α := ℤ)
        (some ⟨["window-titlebar", "window-close", "window-content"], true⟩) (some 0)
        ⟨[{ ConfigDefaults with resizeMinWidth := none, resizeMinHeight := none }]⟩ 0).2.2 =
      .ok ⟨0, true, true, false, false, false⟩ ∧
    ((constructH (α := ℤ)
        (some ⟨["window-titlebar", "window-close", "window-content"], true⟩) (some 0)
        ⟨[{ ConfigDefaults with resizeMinWidth := none, resizeMinHeight := none }]⟩ 0).1.get 0
      ).resizeMinWidth = none ∧
    ((constructH (α := ℤ)
        (some ⟨["window-titlebar", "window-close", "window-content"], true⟩) (some 0)
        ⟨[{ ConfigDefaults with resizeMinWidth := none, resizeMinHeight := none }]⟩ 0).1.get 0
      ).resizeMinHeight = none := by
  decide

/-- C6, amended: only when the configuration argument is omitted does the
resolved configuration (a fresh shallow clone of the defaults) carry
minimum width 100, minimum height 50 and unset — hence unbounded — maximum
width and height; for a caller-supplied configuration record the four
optional numeric bounds are left exactly as supplied, with no defaulting. -/
theorem C6_bounds_resolution (windowElem : Option ElemTree) (cfgArg : Option Nat)
    (h : Heap α) (doc : Nat) (h' : Heap α) (d' : Nat) (inst : Inst)
    (hvalid : ∀ a, cfgArg = some a → a < h.store.length)
    (hok : constructH windowElem cfgArg h doc = (h', d', .ok inst)) :
    (cfgArg = none →
      (h'.get inst.configAddr).resizeMinWidth = some 100 ∧
      (h'.get inst.configAddr).resizeMinHeight = some 50 ∧
      (h'.get inst.configAddr).resizeMaxWidth = none ∧
      (h'.get inst.configAddr).resizeMaxHeight = none) ∧
    ∀ a, cfgArg = some a →
      (h'.get a).resizeMinWidth = (h.get a).resizeMinWidth ∧
      (h'.get a).resizeMinHeight = (h.get a).resizeMinHeight ∧
      (h'.get a).resizeMaxWidth = (h.get a).resizeMaxWidth ∧
      (h'.get a).resizeMaxHeight = (h.get a).resizeMaxHeight := by
  constructor
  · rintro rfl
    obtain ⟨_, _, _, h4, _⟩ := constructH_none_ok hok
    rw [h4]
    exact ⟨rfl, rfl, rfl, rfl⟩
  · rintro a rfl
    obtain ⟨_, _, _, h4, _, _⟩ := constructH_some_ok (hvalid a rfl) hok
    rw [h4]
    exact ⟨rfl, rfl, rfl, rfl⟩

/-- C6, witness: the amended theorem applied to a construction with the
configuration argument omitted, starting from the empty heap. -/
theorem C6_witness :
    (∀ a : Nat, (none : Option Nat) = some a → a < (⟨[]⟩ : Heap ℤ).store.length) ∧
    constructH (α := ℤ)
        (some ⟨["window-titlebar", "window-close", "window-content"], true⟩)
        none ⟨[]⟩ 0 =
      ((⟨[ConfigDefaults]⟩ : Heap ℤ), 1, .ok ⟨0, true, true, false, false, false⟩) ∧
    ((((none : Option Nat) = none →
        ((⟨[ConfigDefaults]⟩ : Heap ℤ).get
            (⟨0, true, true, false, false, false⟩ : Inst).configAddr).resizeMinWidth = some 100 ∧
        ((⟨[ConfigDefaults]⟩ : Heap ℤ).get
            (⟨0, true, true, false, false, false⟩ : Inst).configAddr).resizeMinHeight = some 50 ∧
        ((⟨[ConfigDefaults]⟩ : Heap ℤ).get
            (⟨0, true, true, false, false, false⟩ : Inst).configAddr).resizeMaxWidth = none ∧
        ((⟨[ConfigDefaults]⟩ : Heap ℤ).get
            (⟨0, true, true, false, false, false⟩ : Inst).configAddr).resizeMaxHeight = none) ∧
      ∀ a : Nat, (none : Option Nat) = some a →
        ((⟨[ConfigDefaults]⟩ : Heap ℤ).get a).resizeMinWidth =
          ((⟨[]⟩ : Heap ℤ).get a).resizeMinWidth ∧
        ((⟨[ConfigDefaults]⟩ : Heap ℤ).get a).resizeMinHeight =
          ((⟨[]⟩ : Heap ℤ).get a).resizeMinHeight ∧
        ((⟨[ConfigDefaults]⟩ : Heap ℤ).get a).resizeMaxWidth =
          ((⟨[]⟩ : Heap ℤ).get a).resizeMaxWidth ∧
        ((⟨[ConfigDefaults]⟩ : Heap ℤ).get a).resizeMaxHeight =
          ((⟨[]⟩ : Heap ℤ).get a).resizeMaxHeight)) :=
  ⟨fun a ha => Option.noConfusion ha, by decide,
    C6_bounds_resolution (α := ℤ)
      (some ⟨["window-titlebar", "window-close", "window-content"], true⟩) none ⟨[]⟩ 0
      ⟨[ConfigDefaults]⟩ 1 ⟨0, true, true, false, false, false⟩
      (fun a ha => Option.noConfusion ha) (by decide)⟩

/-! ### Claim C9 -/

/-- C9: at construction, a supplied `draggingThreshold` that compares
`<= 10` or whose type is not `number` is silently replaced by the default
10; a supplied numeric threshold strictly greater than 10 is kept
unchanged; and the resolved threshold is never a number smaller than 10,
so a caller requesting a smaller drag threshold never obtains one. -/
theorem C9_dragging_threshold (windowElem : Option ElemTree) (h : Heap α) (a doc : Nat)
    (h' : Heap α) (d' : Nat) (inst : Inst)
    (ha : a < h.store.length)
    (hok : constructH windowElem (some a) h doc = (h', d', .ok inst)) :
    ((jsLeConst (h.get a).draggingThreshold 10 = true ∨
        typeofIsNumber (h.get a).draggingThreshold = false) →
      (h'.get a).draggingThreshold = .num 10) ∧
    (∀ q : α, 10 < q → (h.get a).draggingThreshold = .num q →
      (h'.get a).draggingThreshold = .num q) ∧
    ∀ q : α, q < 10 → (h'.get a).draggingThreshold ≠ .num q := by
  obtain ⟨_, _, _, h4, _, _⟩ := constructH_some_ok ha hok
  have hth : (h'.get a).draggingThreshold =
      resolveDraggingThreshold (h.get a).draggingThreshold := by
    rw [h4]
    rfl
  rw [hth]
  refine ⟨?_, ?_, ?_⟩
  · rintro (hle | hnum)
    · simp [resolveDraggingThreshold, hle, ConfigDefaults]
    · simp [resolveDraggingThreshold, hnum, ConfigDefaults]
  · intro q hq heq
    rw [heq]
    have h1 : ¬ (q ≤ 10) := by linarith
    simp [resolveDraggingThreshold, jsLeConst, toNumberQ, typeofIsNumber, h1]
  · intro q hq heq
    by_cases hcond : (jsLeConst (h.get a).draggingThreshold 10
        || !typeofIsNumber (h.get a).draggingThreshold) = true
    · rw [resolveDraggingThreshold, if_pos hcond] at heq
      have h10 : (10 : α) = q := by simpa [ConfigDefaults] using heq
      linarith
    · rw [resolveDraggingThreshold, if_neg hcond] at heq
      simp only [Bool.or_eq_true, Bool.not_eq_true', not_or] at hcond
      obtain ⟨hle, _⟩ := hcond
      rw [heq] at hle
      have : q ≤ 10 := by linarith
      simp [jsLeConst, toNumberQ, this] at hle

/-- C9, witness: a construction supplying threshold 5 resolves it to 10. -/
theorem C9_witness :
    0 < (⟨[{ ConfigDefaults with draggingThreshold := .num 5 }]⟩ : Heap ℤ).store.length ∧
    constructH (α := ℤ)
        (some ⟨["window-titlebar", "window-close", "window-content"], true⟩) (some 0)
        ⟨[{ ConfigDefaults with draggingThreshold := .num 5 }]⟩ 0 =
      ((⟨[ConfigDefaults]⟩ : Heap ℤ), 1, .ok ⟨0, true, true, false, false, false⟩) ∧
    (((jsLeConst ((⟨[{ ConfigDefaults with draggingThreshold := .num 5 }]⟩ : Heap ℤ).get 0
            ).draggingThreshold 10 = true ∨
        typeofIsNumber ((⟨[{ ConfigDefaults with draggingThreshold := .num 5 }]⟩ : Heap ℤ
            ).get 0).draggingThreshold = false) →
      ((⟨[ConfigDefaults]⟩ : Heap ℤ).get 0).draggingThreshold = .num 10) ∧
     (∀ q : ℤ, 10 < q →
        ((⟨[{ ConfigDefaults with draggingThreshold := .num 5 }]⟩ : Heap ℤ).get 0
          ).draggingThreshold = .num q →
        ((⟨[ConfigDefaults]⟩ : Heap ℤ).get 0).draggingThreshold = .num q) ∧
     ∀ q : ℤ, q < 10 →
        ((⟨[ConfigDefaults]⟩ : Heap ℤ).get 0).draggingThreshold ≠ .num q) :=
  ⟨by decide, by decide,
    C9_dragging_threshold (α := ℤ)
      (some ⟨["window-titlebar", "window-close", "window-content"], true⟩)
      ⟨[{ ConfigDefaults with draggingThreshold := .num 5 }]⟩ 0 0
      ⟨[ConfigDefaults]⟩ 1 ⟨0, true, true, false, false, false⟩
      (by decide) (by decide)⟩

/-! ### Claim C10 -/

/-- C10: the constructor mutates the caller-supplied configuration object
in place — the constructed instance aliases the caller's object, whose
`resize` and `drag` axis strings are lowercased and whose
`draggingThreshold` may be overwritten — so two instances constructed from
the same configuration object share one object and observe each other's
normalisation writes; only the omitted-argument default is a fresh shallow
clone at a fresh address, leaving every pre-existing object untouched. -/
theorem C10_config_aliasing :
    (∀ (we1 we2 : Option ElemTree) (h : Heap α) (a doc : Nat)
        (h1 : Heap α) (d1 : Nat) (i1 : Inst) (h2 : Heap α) (d2 : Nat) (i2 : Inst),
      a < h.store.length →
      constructH we1 (some a) h doc = (h1, d1, .ok i1) →
      constructH we2 (some a) h1 d1 = (h2, d2, .ok i2) →
      i1.configAddr = a ∧ i2.configAddr = a ∧
      (h1.get a).resize = (h.get a).resize.map jsToLowerCase ∧
      (h1.get a).drag = (h.get a).drag.map jsToLowerCase ∧
      (h1.get a).draggingThreshold = resolveDraggingThreshold (h.get a).draggingThreshold ∧
      h2.get i1.configAddr = h2.get i2.configAddr) ∧
    ∀ (we : Option ElemTree) (h : Heap α) (doc : Nat) (h' : Heap α) (d' : Nat) (i : Inst),
      constructH we none h doc = (h', d', .ok i) →
      i.configAddr = h.store.length ∧
      ∀ b, b < h.store.length → h'.get b = h.get b := by
  constructor
  · intro we1 we2 h a doc h1 d1 i1 h2 d2 i2 ha hok1 hok2
    obtain ⟨e1, _, _, e4, _, elen⟩ := constructH_some_ok ha hok1
    obtain ⟨f1, _, _, _, _, _⟩ := constructH_some_ok (by rw [elen]; exact ha) hok2
    refine ⟨e1, f1, ?_, ?_, ?_, by rw [e1, f1]⟩
    · rw [e4]
      rfl
    · rw [e4]
      rfl
    · rw [e4]
      rfl
  · intro we h doc h' d' i hok
    obtain ⟨e1, _, _, _, e5⟩ := constructH_none_ok hok
    exact ⟨e1, e5⟩

/-- C10, witness: both parts applied to concrete constructions — two
widgets sharing the default-valued object at address 0, and one
omitted-argument construction from the empty heap. -/
theorem C10_witness :
    (0 < (⟨[ConfigDefaults]⟩ : Heap ℤ).store.length ∧
     constructH (α := ℤ)
        (some ⟨["window-titlebar", "window-close", "window-content"], true⟩) (some 0)
        ⟨[ConfigDefaults]⟩ 0 =
      ((⟨[ConfigDefaults]⟩ : Heap ℤ), 1, .ok ⟨0, true, true, false, false, false⟩) ∧
     constructH (α := ℤ)
        (some ⟨["window-titlebar", "window-close", "window-content"], true⟩) (some 0)
        ⟨[ConfigDefaults]⟩ 1 =
      ((⟨[ConfigDefaults]⟩ : Heap ℤ), 2, .ok ⟨0, true, true, false, false, false⟩) ∧
     ((⟨0, true, true, false, false, false⟩ : Inst).configAddr = 0 ∧
      (⟨0, true, true, false, false, false⟩ : Inst).configAddr = 0 ∧
      ((⟨[ConfigDefaults]⟩ : Heap ℤ).get 0).resize =
        ((⟨[ConfigDefaults]⟩ : Heap ℤ).get 0).resize.map jsToLowerCase ∧
      ((⟨[ConfigDefaults]⟩ : Heap ℤ).get 0).drag =
        ((⟨[ConfigDefaults]⟩ : Heap ℤ).get 0).drag.map jsToLowerCase ∧
      ((⟨[ConfigDefaults]⟩ : Heap ℤ).get 0).draggingThreshold =
        resolveDraggingThreshold ((⟨[ConfigDefaults]⟩ : Heap ℤ).get 0).draggingThreshold ∧
      (⟨[ConfigDefaults]⟩ : Heap ℤ).get
          (⟨0, true, true, false, false, false⟩ : Inst).configAddr =
        (⟨[ConfigDefaults]⟩ : Heap ℤ).get
          (⟨0, true, true, false, false, false⟩ : Inst).configAddr)) ∧
    (constructH (α := ℤ)
        (some ⟨["window-titlebar", "window-close", "window-content"], true⟩)
        none ⟨[]⟩ 0 =
      ((⟨[ConfigDefaults]⟩ : Heap ℤ), 1, .ok ⟨0, true, true, false, false, false⟩) ∧
     ((⟨0, true, true, false, false, false⟩ : Inst).configAddr =
        (⟨[]⟩ : Heap ℤ).store.length ∧
      ∀ b, b < (⟨[]⟩ : Heap ℤ).store.length →
        (⟨[ConfigDefaults]⟩ : Heap ℤ).get b = (⟨[]⟩ : Heap ℤ).get b)) :=
  ⟨⟨by decide, by decide, by decide,
    (C10_config_aliasing (α := ℤ)).1
      (some ⟨["window-titlebar", "window-close", "window-content"], true⟩)
      (some ⟨["window-titlebar", "window-close", "window-content"], true⟩)
      ⟨[ConfigDefaults]⟩ 0 0 ⟨[ConfigDefaults]⟩ 1 ⟨0, true, true, false, false, false⟩
      ⟨[ConfigDefaults]⟩ 2 ⟨0, true, true, false, false, false⟩
      (by decide) (by decide) (by decide)⟩,
   ⟨by decide,
    (C10_config_aliasing (α := ℤ)).2
      (some ⟨["window-titlebar", "window-close", "window-content"], true⟩)
      ⟨[]⟩ 0 ⟨[ConfigDefaults]⟩ 1 ⟨0, true, true, false, false, false⟩ (by decide)⟩⟩

/-! ### Claim C4 -/

/-- Dereference on a one-object heap. -/
theorem Heap.get_single (c : FakeWindowConfig α) : (⟨[c]⟩ : Heap α).get 0 = c := rfl

/-- Write on a one-object heap. -/
theorem Heap.set_single (c c' : FakeWindowConfig α) :
    (⟨[c]⟩ : Heap α).set 0 c' = ⟨[c']⟩ := rfl

/-- The constructor outcome on a one-object heap, once the two
configuration asserts pass: the element-lookup cascade in source order
(container, title bar, close affordance, content area). -/
theorem constructH_single_result (windowElem : Option ElemTree) (cfg : FakeWindowConfig α)
    (doc : Nat)
    (hre : resizeSetupOk { cfg with resize := cfg.resize.map jsToLowerCase } = true)
    (hdr : dragSetupOk { { cfg with resize := cfg.resize.map jsToLowerCase } with
        drag := cfg.drag.map jsToLowerCase } = true) :
    (constructH windowElem (some 0) (⟨[cfg]⟩ : Heap α) doc).2.2 =
      match windowElem with
      | none => .error "[window::FakeWindow] No window, a predetermined window div is required."
      | some t =>
        if t.has (cfg.elementClassPfx ++ cfg.titlebarClass) = false then
          .error "[window::FakeWindow] No titlebar"
        else if t.has (cfg.elementClassPfx ++ cfg.titlebarCloseClass) = false then
          .error "[window::FakeWindow] No titlebar close (yes close is required)"
        else if t.has (cfg.elementClassPfx ++ cfg.contentClass) = false then
          .error "[window::FakeWindow] No content"
        else
          .ok { configAddr := 0
                window := true
                attached := t.attachedToParent
                titlebarTextPresent := t.has (cfg.elementClassPfx ++ cfg.titlebarTextClass)
                titlebarMinimizePresent :=
                  t.has (cfg.elementClassPfx ++ cfg.titlebarMinimizeClass)
                titlebarMaximizePresent :=
                  t.has (cfg.elementClassPfx ++ cfg.titlebarMaximizeClass) } := by
  simp only [constructH, Heap.get_single, Heap.set_single, hre, hdr]
  cases windowElem with
  | none => rfl
  | some t =>
    by_cases h1 : t.has (cfg.elementClassPfx ++ cfg.titlebarClass) = false <;>
      by_cases h2 : t.has (cfg.elementClassPfx ++ cfg.titlebarCloseClass) = false <;>
        by_cases h3 : t.has (cfg.elementClassPfx ++ cfg.contentClass) = false <;>
          simp [h1, h2, h3]

/-- C4, counterexample: a container that has the title-bar and
close-affordance sub-elements but lacks the content area makes
construction FAIL with "No content" (window.js line 281 asserts the
content area), against the claim that only container, title bar and close
affordance are required. -/
theorem C4_counterexample :
    (constructH (α := ℤ) (some ⟨["window-titlebar", "window-close"], true⟩)
        none ⟨[]⟩ 0).2.2 =
      .error "[window::FakeWindow] No content" := by
  decide

/-- C4, amended: with a configuration accepted by the two axis asserts,
construction succeeds exactly when the container is present and the
title-bar, close-affordance AND content-area sub-elements are all found;
the title text and the minimize / maximize buttons may be absent without
causing failure (they do not appear in the condition), and each missing
required element fails with its own descriptive error. -/
theorem C4_required_elements (windowElem : Option ElemTree) (cfg : FakeWindowConfig α)
    (hre : resizeSetupOk { cfg with resize := cfg.resize.map jsToLowerCase } = true)
    (hdr : dragSetupOk { { cfg with resize := cfg.resize.map jsToLowerCase } with
        drag := cfg.drag.map jsToLowerCase } = true) :
    (∃ inst, (constructH windowElem (some 0) (⟨[cfg]⟩ : Heap α) 0).2.2 = .ok inst) ↔
    ∃ t, windowElem = some t ∧
      t.has (cfg.elementClassPfx ++ cfg.titlebarClass) = true ∧
      t.has (cfg.elementClassPfx ++ cfg.titlebarCloseClass) = true ∧
      t.has (cfg.elementClassPfx ++ cfg.contentClass) = true := by
  rw [constructH_single_result windowElem cfg 0 hre hdr]
  cases windowElem with
  | none => simp
  | some t =>
    by_cases h1 : t.has (cfg.elementClassPfx ++ cfg.titlebarClass) = true
    · by_cases h2 : t.has (cfg.elementClassPfx ++ cfg.titlebarCloseClass) = true
      · by_cases h3 : t.has (cfg.elementClassPfx ++ cfg.contentClass) = true
        · simp [h1, h2, h3]
        · simp [h1, h2, h3]
      · simp [h1, h2]
    · simp [h1]

/-- C4, witness: the amended equivalence applied to the default
configuration and a container holding exactly the three required
sub-elements (title text, minimize and maximize absent). -/
theorem C4_witness :
    resizeSetupOk { (ConfigDefaults : FakeWindowConfig ℤ) with
        resize := (ConfigDefaults : FakeWindowConfig ℤ).resize.map jsToLowerCase } = true ∧
    dragSetupOk { { (ConfigDefaults : FakeWindowConfig ℤ) with
        resize := (ConfigDefaults : FakeWindowConfig ℤ).resize.map jsToLowerCase } with
        drag := (ConfigDefaults : FakeWindowConfig ℤ).drag.map jsToLowerCase } = true ∧
    ((∃ inst, (constructH (α := ℤ)
        (some ⟨["window-titlebar", "window-close", "window-content"], true⟩) (some 0)
        ⟨[ConfigDefaults]⟩ 0).2.2 = .ok inst) ↔
      ∃ t, (some (⟨["window-titlebar", "window-close", "window-content"], true⟩ : ElemTree))
          = some t ∧
        t.has ((ConfigDefaults : FakeWindowConfig ℤ).elementClassPfx ++
          (ConfigDefaults : FakeWindowConfig ℤ).titlebarClass) = true ∧
        t.has ((ConfigDefaults : FakeWindowConfig ℤ).elementClassPfx ++
          (ConfigDefaults : FakeWindowConfig ℤ).titlebarCloseClass) = true ∧
        t.has ((ConfigDefaults : FakeWindowConfig ℤ).elementClassPfx ++
          (ConfigDefaults : FakeWindowConfig ℤ).contentClass) = true) :=
  ⟨by decide, by decide,
    C4_required_elements
      (some ⟨["window-titlebar", "window-close", "window-content"], true⟩)
      (ConfigDefaults : FakeWindowConfig ℤ) (by decide) (by decide)⟩

end FakeWindow
